import Mathlib

/-!
Shallow embedding of `components/esp_driver_isp/src/isp_awb.c` (ESP-IDF AWB
statistics controller).  Hardware register writes are modelled as fields of the
controller state (`engine` records the last value written by
`isp_ll_awb_enable`); the external HAL validators and allocators, which are
collaborators outside this file of the driver, are modelled as boolean oracles
in `HalEnv`.  The FreeRTOS binary semaphore `stat_lock` is a `Bool`
(`true` = token available) and the capacity-one event queue `evt_que` is an
`Option`.  Interrupt-context interaction during a blocking wait is modelled by
an oracle `completes : Option AwbStatResult` saying whether the hardware
finishes a sampling window during the wait; when it does, the embedded ISR
`s_isp_awb_default_isr` runs on the mid-call state, exactly as in the driver.
-/

/-- `esp_err_t` values used by the driver. -/
inductive EspErr where
  | ok
  | fail
  | invalidArg
  | invalidState
  | timeout
  | noMem
  | notFound
  deriving DecidableEq

/-- `isp_fsm_t`: ISP_FSM_INIT / ISP_FSM_ENABLE / ISP_FSM_START. -/
inductive IspFsm where
  | init
  | enable
  | start
  deriving DecidableEq

/-- `isp_awb_stat_result_t`: the four hardware accumulators. -/
structure AwbStatResult where
  white_patch_num : Nat
  sum_r : Nat
  sum_g : Nat
  sum_b : Nat
  deriving DecidableEq

/-- Observable state of one `isp_awb_controller_t` plus the hardware bits the
driver writes.  `stat_lock = true` means the binary semaphore token is
available; `evt_que` is the capacity-one queue; `engine` is the last value
written to `isp_ll_awb_enable`; `intr_enabled` covers `esp_intr_enable` plus
the AWB mask in `isp_ll_enable_intr`; `clk_en` is `isp_ll_awb_clk_enable`;
`cb_present` records whether `cbs.on_statistics_done` is registered. -/
structure AwbCtlrState where
  fsm : IspFsm
  stat_lock : Bool
  evt_que : Option AwbStatResult
  engine : Bool
  intr_enabled : Bool
  clk_en : Bool
  cb_present : Bool
  deriving DecidableEq

/-- Timeout in FreeRTOS ticks: `none` models `portMAX_DELAY` (negative
`timeout_ms`); otherwise `pdMS_TO_TICKS` at a 1000 Hz tick rate, which is the
identity on milliseconds. -/
def ticksOf (timeout_ms : Int) : Option Nat :=
  if timeout_ms < 0 then none else some timeout_ms.toNat

/-- Result of the interrupt bottom half `s_isp_awb_default_isr`.
`retriggered` records whether the handler executed
`isp_ll_awb_enable(hw, true)`; `yielded` records `portYIELD_FROM_ISR`. -/
structure IsrOut where
  state : AwbCtlrState
  retriggered : Bool
  yielded : Bool
  deriving DecidableEq

/-- `s_isp_awb_default_isr`: on an AWB-finished event it reads the four
accumulators (`regs`), invokes the registered callback if present (`cbYield`
is the callback's return value), overwrites the event queue with the fresh
result (`queueWake` is `high_task_awake` from `xQueueOverwriteFromISR`), and
re-enables the engine whenever `fsm == ISP_FSM_START` — the only condition the
code checks. -/
def s_isp_awb_default_isr (s : AwbCtlrState) (fdone : Bool) (regs : AwbStatResult)
    (cbYield queueWake : Bool) : IsrOut :=
  if fdone = true then
    let retrig : Bool := decide (s.fsm = IspFsm.start)
    { state := { s with evt_que := some regs,
                        engine := if retrig then true else s.engine },
      retriggered := retrig,
      yielded := (s.cb_present && cbYield) || queueWake }
  else
    { state := s, retriggered := false, yielded := false }

/-- `esp_isp_awb_controller_enable`: requires INIT; arms interrupt and clock,
gives the statistics semaphore, moves to ENABLE. -/
def esp_isp_awb_controller_enable (s : AwbCtlrState) : EspErr × AwbCtlrState :=
  if s.fsm ≠ IspFsm.init then (EspErr.invalidState, s)
  else (EspErr.ok,
    { s with intr_enabled := true, clk_en := true, stat_lock := true,
             fsm := IspFsm.enable })

/-- `esp_isp_awb_controller_disable`: requires ENABLE; disarms interrupt and
clock, moves to INIT, then `xSemaphoreTake(stat_lock, 0)`: the token is
consumed if available and the call returns at once otherwise, so afterwards
the semaphore is unavailable in either case. -/
def esp_isp_awb_controller_disable (s : AwbCtlrState) : EspErr × AwbCtlrState :=
  if s.fsm ≠ IspFsm.enable then (EspErr.invalidState, s)
  else (EspErr.ok,
    { s with intr_enabled := false, clk_en := false, fsm := IspFsm.init,
             stat_lock := false })

/-- Result of `esp_isp_awb_controller_get_oneshot_statistics`.  `delivered` is
what `xQueueReceive` wrote into `*out_res` (`none` when no receive happened);
`acquired` is the (ignored by the code) return value of `xSemaphoreTake` on
`stat_lock`; `triggered` records whether the call reached
`isp_ll_awb_enable(hw, true)`; `retriggered` records whether the ISR running
during the wait re-enabled the engine. -/
structure OneshotOut where
  err : EspErr
  state : AwbCtlrState
  delivered : Option AwbStatResult
  acquired : Bool
  triggered : Bool
  retriggered : Bool
  deriving DecidableEq

/-- `esp_isp_awb_controller_get_oneshot_statistics`.  `out_res` says whether
the caller passed a non-null result pointer; `completes` is the hardware
oracle: `some regs` when a sampling window finishes during the relay wait.
The whole call returns `none` when it blocks forever (`portMAX_DELAY` with
nothing to wake it).  Note the code ignores the return value of
`xSemaphoreTake(stat_lock, ticks)` and proceeds either way, and skips the
`xQueueReceive` entirely when `ticks == 0`. -/
def esp_isp_awb_controller_get_oneshot_statistics (s : AwbCtlrState)
    (timeout_ms : Int) (out_res : Bool) (completes : Option AwbStatResult)
    (cbYield queueWake : Bool) : Option OneshotOut :=
  if ¬ (out_res = true ∨ timeout_ms = 0) then
    some { err := EspErr.invalidArg, state := s, delivered := none,
           acquired := false, triggered := false, retriggered := false }
  else if s.fsm ≠ IspFsm.enable then
    some { err := EspErr.invalidState, state := s, delivered := none,
           acquired := false, triggered := false, retriggered := false }
  else
    let ticks := ticksOf timeout_ms
    let acquired := s.stat_lock
    if s.stat_lock = false ∧ ticks = none then
      none
    else
      let s1 : AwbCtlrState :=
        { s with stat_lock := false, fsm := IspFsm.start, evt_que := none,
                 engine := true }
      if ticks = some 0 then
        some { err := EspErr.ok,
               state := { s1 with
                            engine := false,
                            fsm := IspFsm.enable,
                            stat_lock := true },
               delivered := none, acquired := acquired, triggered := true,
               retriggered := false }
      else
        match completes with
        | some regs =>
          let i := s_isp_awb_default_isr s1 true regs cbYield queueWake
          some { err := EspErr.ok,
                 state := { i.state with
                              evt_que := none,
                              engine := false,
                              fsm := IspFsm.enable,
                              stat_lock := true },
                 delivered := i.state.evt_que, acquired := acquired,
                 triggered := true, retriggered := i.retriggered }
        | none =>
          if ticks = none then none
          else
            some { err := EspErr.timeout,
                   state := { s1 with
                                engine := false,
                                fsm := IspFsm.enable,
                                stat_lock := true },
                   delivered := none, acquired := acquired, triggered := true,
                   retriggered := false }

/-- Result of `esp_isp_awb_controller_start_continuous_statistics`.
`triggered` records whether the call executed `isp_ll_awb_enable(hw, true)`. -/
structure StartContOut where
  err : EspErr
  state : AwbCtlrState
  triggered : Bool
  deriving DecidableEq

/-- `esp_isp_awb_controller_start_continuous_statistics`: requires ENABLE,
then a non-blocking take of `stat_lock`; if the token is unavailable it
returns InvalidState with no side effect, otherwise it moves to START and
triggers the engine. -/
def esp_isp_awb_controller_start_continuous_statistics (s : AwbCtlrState) :
    StartContOut :=
  if s.fsm ≠ IspFsm.enable then
    { err := EspErr.invalidState, state := s, triggered := false }
  else if s.stat_lock = false then
    { err := EspErr.invalidState, state := s, triggered := false }
  else
    { err := EspErr.ok,
      state := { s with stat_lock := false, fsm := IspFsm.start, engine := true },
      triggered := true }

/-- `esp_isp_awb_controller_stop_continuous_statistics`: requires START;
stops the engine, returns to ENABLE, gives the semaphore back. -/
def esp_isp_awb_controller_stop_continuous_statistics (s : AwbCtlrState) :
    EspErr × AwbCtlrState :=
  if s.fsm ≠ IspFsm.start then (EspErr.invalidState, s)
  else (EspErr.ok,
    { s with engine := false, fsm := IspFsm.enable, stat_lock := true })

/-- `s_isp_claim_awb_controller`: atomic check-and-set of the processor's
single `awb_ctlr` slot (controllers are identified by `Nat` ids standing for
their addresses). -/
def s_isp_claim_awb_controller (slot : Option Nat) (newId : Nat) :
    EspErr × Option Nat :=
  match slot with
  | none => (EspErr.ok, some newId)
  | some old => (EspErr.notFound, some old)

/-- `s_isp_declaim_awb_controller`: when the controller and its processor
back-reference are non-null it writes NULL into the slot unconditionally —
the declaiming controller's identity `ctlrId` is never compared with the
slot's occupant. -/
def s_isp_declaim_awb_controller (ctlrId : Nat) (ctlrNonNull procNonNull : Bool)
    (slot : Option Nat) : Option Nat :=
  if ctlrNonNull && procNonNull then none else slot

/-- `ESP_INTR_FLAG_LOWMED` = LEVEL1 | LEVEL2 | LEVEL3 = 1 + 2 + 4. -/
def ESP_INTR_FLAG_LOWMED : Nat := 7

/-- The interrupt-priority flag chosen by `esp_isp_new_awb_controller`:
`BIT(intr_priority)` when `0 < intr_priority <= 7`, otherwise the default
`ESP_INTR_FLAG_LOWMED`. -/
def awbIntrFlag (p : Int) : Nat :=
  if 0 < p ∧ p ≤ 7 then 2 ^ p.toNat else ESP_INTR_FLAG_LOWMED

/-- `isp_u32_range_t`. -/
structure isp_u32_range_t where
  min : Nat
  max : Nat
  deriving DecidableEq

/-- `isp_float_range_t`; the driver only compares these values, so they are
modelled as rationals, which agrees with IEEE comparison on the finite
non-NaN floats. -/
structure isp_float_range_t where
  min : Rat
  max : Rat
  deriving DecidableEq

/-- The `white_patch` part of `esp_isp_awb_config_t`. -/
structure esp_isp_awb_wp_config_t where
  luminance : isp_u32_range_t
  red_green_ratio : isp_float_range_t
  blue_green_ratio : isp_float_range_t
  deriving DecidableEq

/-- `esp_isp_awb_config_t`.  The spatial window is opaque hardware data whose
validation lives in the external HAL, so it is represented only by the
`window_ok` oracle in `HalEnv`. -/
structure esp_isp_awb_config_t where
  sample_point : Nat
  white_patch : esp_isp_awb_wp_config_t
  intr_priority : Int
  deriving DecidableEq

/-- Outcomes of the external collaborators called by
`esp_isp_new_awb_controller`: the three allocators (`heap_caps_calloc`,
`xQueueCreateWithCaps`, `xSemaphoreCreateBinaryWithCaps`),
`esp_intr_alloc_intrstatus`, and the HAL validators
(`isp_hal_awb_set_window_range`, `isp_hal_awb_set_luminance_range`,
`isp_hal_awb_set_rg_ratio_range`, `isp_hal_awb_set_bg_ratio_range`). -/
structure HalEnv where
  calloc_ok : Bool
  que_ok : Bool
  sem_ok : Bool
  intr_alloc_ok : Bool
  window_ok : Bool
  lum_ok : Bool
  rg_ok : Bool
  bg_ok : Bool
  deriving DecidableEq

/-- A freshly created controller: `heap_caps_calloc` zeroes the record, the
binary semaphore is created empty, `fsm = ISP_FSM_INIT`, and the create path
writes `isp_ll_awb_enable(hw, false)`. -/
def freshAwbCtlr : AwbCtlrState :=
  { fsm := IspFsm.init, stat_lock := false, evt_que := none, engine := false,
    intr_enabled := false, clk_en := false, cb_present := false }

/-- The controller handle returned by a successful create, together with the
interrupt flag passed to `esp_intr_alloc_intrstatus`. -/
structure AwbHandle where
  ctlr : AwbCtlrState
  intr_flag : Nat
  deriving DecidableEq

/-- Result of `esp_isp_new_awb_controller`: the error code, the processor's
`awb_ctlr` slot afterwards, and the handle written to `*ret_hdl` (`none` on
failure, where the controller has been freed). -/
structure CreateOut where
  err : EspErr
  slot : Option Nat
  handle : Option AwbHandle
  deriving DecidableEq

/-- `esp_isp_new_awb_controller`: argument check, three allocations, slot
claim, interrupt allocation, hardware configuration with range validation.
The `err2` rollback path declaims (which NULLs the slot) and frees; the `err1`
path only frees, leaving the slot as the claim left it. -/
def esp_isp_new_awb_controller (env : HalEnv) (slot : Option Nat)
    (cfg : esp_isp_awb_config_t) (newId : Nat) (argsOk : Bool) : CreateOut :=
  if argsOk = false then
    { err := EspErr.invalidArg, slot := slot, handle := none }
  else if env.calloc_ok = false then
    { err := EspErr.noMem, slot := slot, handle := none }
  else if env.que_ok = false then
    { err := EspErr.noMem, slot := slot, handle := none }
  else if env.sem_ok = false then
    { err := EspErr.noMem, slot := slot, handle := none }
  else
    match s_isp_claim_awb_controller slot newId with
    | (EspErr.ok, slot1) =>
      if env.intr_alloc_ok = false then
        { err := EspErr.fail,
          slot := s_isp_declaim_awb_controller newId true true slot1,
          handle := none }
      else if env.window_ok = false then
        { err := EspErr.invalidArg,
          slot := s_isp_declaim_awb_controller newId true true slot1,
          handle := none }
      else if env.lum_ok = false then
        { err := EspErr.invalidArg,
          slot := s_isp_declaim_awb_controller newId true true slot1,
          handle := none }
      else if ¬ (cfg.white_patch.red_green_ratio.min <
                   cfg.white_patch.red_green_ratio.max ∧
                 0 ≤ cfg.white_patch.red_green_ratio.min ∧
                 env.rg_ok = true) then
        { err := EspErr.invalidArg,
          slot := s_isp_declaim_awb_controller newId true true slot1,
          handle := none }
      else if ¬ (cfg.white_patch.blue_green_ratio.min <
                   cfg.white_patch.blue_green_ratio.max ∧
                 0 ≤ cfg.white_patch.blue_green_ratio.min ∧
                 env.bg_ok = true) then
        { err := EspErr.invalidArg,
          slot := s_isp_declaim_awb_controller newId true true slot1,
          handle := none }
      else
        { err := EspErr.ok, slot := slot1,
          handle := some { ctlr := freshAwbCtlr,
                           intr_flag := awbIntrFlag cfg.intr_priority } }
    | (e, slot1) => { err := e, slot := slot1, handle := none }

/-- A controller sitting idle right after `enable`: ENABLE state, semaphore
available, engine off, interrupt and clock armed. -/
def enabledIdle : AwbCtlrState :=
  { fsm := IspFsm.enable, stat_lock := true, evt_que := none, engine := false,
    intr_enabled := true, clk_en := true, cb_present := false }

/-! Theorems for the claims. -/

/-- Helper: with all external collaborators succeeding, an empty slot and
valid ratio ranges, `esp_isp_new_awb_controller` succeeds, claims the slot and
returns a fresh controller with the priority flag `awbIntrFlag`. -/
theorem create_ok_of_valid (env : HalEnv) (cfg : esp_isp_awb_config_t) (nid : Nat)
    (h1 : env.calloc_ok = true) (h2 : env.que_ok = true) (h3 : env.sem_ok = true)
    (h4 : env.intr_alloc_ok = true) (h5 : env.window_ok = true)
    (h6 : env.lum_ok = true) (h7 : env.rg_ok = true) (h8 : env.bg_ok = true)
    (hrg : cfg.white_patch.red_green_ratio.min < cfg.white_patch.red_green_ratio.max
           ∧ 0 ≤ cfg.white_patch.red_green_ratio.min)
    (hbg : cfg.white_patch.blue_green_ratio.min < cfg.white_patch.blue_green_ratio.max
           ∧ 0 ≤ cfg.white_patch.blue_green_ratio.min) :
    esp_isp_new_awb_controller env none cfg nid true
      = { err := EspErr.ok, slot := some nid,
          handle := some { ctlr := freshAwbCtlr,
                           intr_flag := awbIntrFlag cfg.intr_priority } } := by
  simp [esp_isp_new_awb_controller, s_isp_claim_awb_controller,
        h1, h2, h3, h4, h5, h6, h7, h8, hrg.1, hrg.2, hbg.1, hbg.2]

/-- Claim C1: the claim says `get_oneshot_statistics` proceeds to set state
Started and trigger the engine only if it actually acquired the Gate within
the caller's timeout.  The code ignores the return value of
`xSemaphoreTake(stat_lock, ticks)`: at a controller in ENABLE state whose
Gate is already held by a racing request (reachable when two callers pass the
`fsm == ISP_FSM_ENABLE` precondition before either sets START), a
`get_oneshot` call with timeout 0 fails the acquisition (`acquired = false`)
yet still proceeds — it triggers the engine (`triggered = true`), returns
ESP_OK, and finally gives back a Gate it never acquired (final
`stat_lock = true`), so a second sampling request gets in flight. -/
theorem c1_oneshot_proceeds_without_gate :
    esp_isp_awb_controller_get_oneshot_statistics
        { fsm := IspFsm.enable, stat_lock := false, evt_que := none,
          engine := false, intr_enabled := true, clk_en := true,
          cb_present := false } 0 true none false false
      = some { err := EspErr.ok, state := enabledIdle, delivered := none,
               acquired := false, triggered := true, retriggered := false } := by
  decide

/-- Claim C2: the claim (and the code's own comment, which reads
`If started continuous sampling, then trigger the next AWB sample`) says a
completion belonging to a one-shot request does not cause an immediate
re-trigger.  But the interrupt handler checks only `fsm == ISP_FSM_START`,
which also holds while a one-shot request is waiting on the relay: during a
successful one-shot on a just-enabled controller, the ISR does re-enable the
engine (`retriggered = true`). -/
theorem c2_oneshot_completion_retriggers :
    esp_isp_awb_controller_get_oneshot_statistics enabledIdle 100 true
        (some { white_patch_num := 1, sum_r := 2, sum_g := 3, sum_b := 4 })
        false false
      = some { err := EspErr.ok, state := enabledIdle,
               delivered := some { white_patch_num := 1, sum_r := 2,
                                   sum_g := 3, sum_b := 4 },
               acquired := true, triggered := true, retriggered := true } := by
  decide

/-- Claim C5 counterexample: on a just-enabled idle controller with
timeout = 0, `get_oneshot_statistics` returns ESP_OK (not Timeout) with no
result delivered — `ticks == 0` makes the code skip `xQueueReceive` entirely,
so the call returns success without delivering a result, which the claim says
cannot happen. -/
theorem c5_timeout0_success_without_result :
    esp_isp_awb_controller_get_oneshot_statistics enabledIdle 0 true none false false
      = some { err := EspErr.ok, state := enabledIdle, delivered := none,
               acquired := true, triggered := true, retriggered := false } := by
  decide

/-- Claim C7 counterexample: controller 1 (non-null, with a processor
back-reference) declaims while the slot is occupied by controller 2; the
claim says the occupant is left unchanged, but the code NULLs the slot
unconditionally. -/
theorem c7_declaim_clears_foreign_occupant :
    s_isp_declaim_awb_controller 1 true true (some 2) = none
  ∧ ¬ (s_isp_declaim_awb_controller 1 true true (some 2) = some 2) := by
  constructor
  · decide
  · decide

/-- Claim C7 as amended: `declaim` clears the processor's slot
unconditionally whenever the declaiming controller and its processor
back-reference are non-null — regardless of which controller occupies the
slot — and is a no-op only when the controller or its processor reference is
null. -/
theorem c7_declaim_unconditional (cid occupant : Nat) (slot : Option Nat) :
    s_isp_declaim_awb_controller cid true true (some occupant) = none
  ∧ s_isp_declaim_awb_controller cid true true none = none
  ∧ s_isp_declaim_awb_controller cid false true slot = slot
  ∧ s_isp_declaim_awb_controller cid true false slot = slot := by
  simp [s_isp_declaim_awb_controller]

/-- Claim C9 counterexample: `disable` on an enabled controller with the Gate
available does not force the Gate to the available state — it executes
`xSemaphoreTake(stat_lock, 0)`, forcing it unavailable. -/
theorem c9_disable_gate_not_available :
    ¬ ((esp_isp_awb_controller_disable enabledIdle).2.stat_lock = true) := by
  decide

/-- Claim C3: if `get_oneshot_statistics` times out waiting on the Relay
(positive timeout, Gate acquired, no completion arrives), it still disables
the engine, restores state Enabled, and releases the Gate before returning,
and it returns a Timeout error with no result delivered to the caller. -/
theorem c3_relay_timeout_restores (s : AwbCtlrState) (t : Int) (cy qw : Bool)
    (hf : s.fsm = IspFsm.enable) (hl : s.stat_lock = true) (ht : 0 < t) :
    esp_isp_awb_controller_get_oneshot_statistics s t true none cy qw
      = some { err := EspErr.timeout,
               state := { s with
                            stat_lock := true,
                            fsm := IspFsm.enable,
                            evt_que := none,
                            engine := false },
               delivered := none, acquired := true, triggered := true,
               retriggered := false } := by
  have h1 : ¬ t < 0 := by omega
  have h2 : t.toNat ≠ 0 := by omega
  obtain ⟨f, l, q, e, i, k, cb⟩ := s
  simp only at hf hl
  subst hf hl
  simp [esp_isp_awb_controller_get_oneshot_statistics, ticksOf, h1, h2]

/-- Witness for C3 at the just-enabled idle controller with a 100 ms
timeout. -/
theorem c3_relay_timeout_restores_witness :
    enabledIdle.fsm = IspFsm.enable ∧ enabledIdle.stat_lock = true ∧ (0:Int) < 100 ∧
    esp_isp_awb_controller_get_oneshot_statistics enabledIdle 100 true none false false
      = some { err := EspErr.timeout,
               state := { enabledIdle with
                            stat_lock := true,
                            fsm := IspFsm.enable,
                            evt_que := none,
                            engine := false },
               delivered := none, acquired := true, triggered := true,
               retriggered := false } :=
  ⟨by decide, by decide, by decide,
   c3_relay_timeout_restores enabledIdle 100 false false (by decide) (by decide)
     (by decide)⟩

/-- Claim C4: on an Enabled controller whose Gate is unavailable,
`start_continuous` fails with InvalidState and has no side effects (the
returned state is the input state, the engine is not triggered); when the
Gate is available, the call succeeds with exactly one acquisition and one
engine trigger, and an immediately following second call fails with
InvalidState and triggers nothing. -/
theorem c4_start_continuous_gate (s : AwbCtlrState) (hf : s.fsm = IspFsm.enable) :
    (s.stat_lock = false →
        esp_isp_awb_controller_start_continuous_statistics s
          = { err := EspErr.invalidState, state := s, triggered := false })
  ∧ (s.stat_lock = true →
        esp_isp_awb_controller_start_continuous_statistics s
          = { err := EspErr.ok,
              state := { s with
                           stat_lock := false,
                           fsm := IspFsm.start,
                           engine := true },
              triggered := true }
      ∧ (esp_isp_awb_controller_start_continuous_statistics
            { s with
                stat_lock := false,
                fsm := IspFsm.start,
                engine := true }).err = EspErr.invalidState
      ∧ (esp_isp_awb_controller_start_continuous_statistics
            { s with
                stat_lock := false,
                fsm := IspFsm.start,
                engine := true }).triggered = false) := by
  obtain ⟨f, l, q, e, i, k, cb⟩ := s
  simp only at hf
  subst hf
  constructor
  · intro hl
    simp only at hl
    subst hl
    simp [esp_isp_awb_controller_start_continuous_statistics]
  · intro hl
    simp only at hl
    subst hl
    simp [esp_isp_awb_controller_start_continuous_statistics]

/-- Witness for C4 at the just-enabled idle controller. -/
theorem c4_start_continuous_gate_witness :
    enabledIdle.fsm = IspFsm.enable ∧
    ((enabledIdle.stat_lock = false →
        esp_isp_awb_controller_start_continuous_statistics enabledIdle
          = { err := EspErr.invalidState, state := enabledIdle, triggered := false })
  ∧ (enabledIdle.stat_lock = true →
        esp_isp_awb_controller_start_continuous_statistics enabledIdle
          = { err := EspErr.ok,
              state := { enabledIdle with
                           stat_lock := false,
                           fsm := IspFsm.start,
                           engine := true },
              triggered := true }
      ∧ (esp_isp_awb_controller_start_continuous_statistics
            { enabledIdle with
                stat_lock := false,
                fsm := IspFsm.start,
                engine := true }).err = EspErr.invalidState
      ∧ (esp_isp_awb_controller_start_continuous_statistics
            { enabledIdle with
                stat_lock := false,
                fsm := IspFsm.start,
                engine := true }).triggered = false)) :=
  ⟨by decide, c4_start_continuous_gate enabledIdle (by decide)⟩

/-- Claim C5 as amended: a `get_oneshot_statistics` call on an Enabled
controller with timeout = 0 never blocks and returns immediately, but it
always returns ESP_OK with no result delivered — `ticks == 0` makes the code
skip the Relay receive entirely, so it neither delivers data nor reports
Timeout; the engine is triggered and stopped, the state restored and the
Gate released. -/
theorem c5_timeout0_ok_without_result (s : AwbCtlrState) (o cy qw : Bool)
    (c : Option AwbStatResult) (hf : s.fsm = IspFsm.enable) :
    esp_isp_awb_controller_get_oneshot_statistics s 0 o c cy qw
      = some { err := EspErr.ok,
               state := { s with
                            stat_lock := true,
                            fsm := IspFsm.enable,
                            evt_que := none,
                            engine := false },
               delivered := none, acquired := s.stat_lock, triggered := true,
               retriggered := false } := by
  obtain ⟨f, l, q, e, i, k, cb⟩ := s
  simp only at hf
  subst hf
  simp [esp_isp_awb_controller_get_oneshot_statistics, ticksOf]

/-- Witness for the amended C5 at the just-enabled idle controller, with a
null result pointer (allowed when timeout = 0). -/
theorem c5_timeout0_ok_without_result_witness :
    enabledIdle.fsm = IspFsm.enable ∧
    esp_isp_awb_controller_get_oneshot_statistics enabledIdle 0 false none true true
      = some { err := EspErr.ok,
               state := { enabledIdle with
                            stat_lock := true,
                            fsm := IspFsm.enable,
                            evt_que := none,
                            engine := false },
               delivered := none, acquired := enabledIdle.stat_lock,
               triggered := true, retriggered := false } :=
  ⟨by decide, c5_timeout0_ok_without_result enabledIdle false true true none (by decide)⟩

/-- Claim C6: a `create` whose red/green ratio range has min > max (or
min < 0) fails with InvalidArgument, returns no handle, and releases the
claimed processor slot, so a subsequent `create` on the same processor with a
valid configuration succeeds (the hypotheses say all external allocators and
the earlier HAL validators succeed, so the red/green range check is the first
failure). -/
theorem c6_create_rollback
    (env env2 : HalEnv) (cfg cfg2 : esp_isp_awb_config_t) (id1 id2 : Nat)
    (h1 : env.calloc_ok = true) (h2 : env.que_ok = true) (h3 : env.sem_ok = true)
    (h4 : env.intr_alloc_ok = true) (h5 : env.window_ok = true)
    (h6 : env.lum_ok = true)
    (hbad : cfg.white_patch.red_green_ratio.max < cfg.white_patch.red_green_ratio.min
            ∨ cfg.white_patch.red_green_ratio.min < 0)
    (g1 : env2.calloc_ok = true) (g2 : env2.que_ok = true) (g3 : env2.sem_ok = true)
    (g4 : env2.intr_alloc_ok = true) (g5 : env2.window_ok = true)
    (g6 : env2.lum_ok = true) (g7 : env2.rg_ok = true) (g8 : env2.bg_ok = true)
    (hrg2 : cfg2.white_patch.red_green_ratio.min < cfg2.white_patch.red_green_ratio.max
            ∧ 0 ≤ cfg2.white_patch.red_green_ratio.min)
    (hbg2 : cfg2.white_patch.blue_green_ratio.min < cfg2.white_patch.blue_green_ratio.max
            ∧ 0 ≤ cfg2.white_patch.blue_green_ratio.min) :
    esp_isp_new_awb_controller env none cfg id1 true
      = { err := EspErr.invalidArg, slot := none, handle := none }
  ∧ esp_isp_new_awb_controller env2
        (esp_isp_new_awb_controller env none cfg id1 true).slot cfg2 id2 true
      = { err := EspErr.ok, slot := some id2,
          handle := some { ctlr := freshAwbCtlr,
                           intr_flag := awbIntrFlag cfg2.intr_priority } } := by
  have hno : ¬ (cfg.white_patch.red_green_ratio.min <
                  cfg.white_patch.red_green_ratio.max ∧
                0 ≤ cfg.white_patch.red_green_ratio.min ∧
                env.rg_ok = true) := by
    rcases hbad with h | h
    · exact fun hc => absurd hc.1 (not_lt.mpr (le_of_lt h))
    · exact fun hc => absurd hc.2.1 (not_le.mpr h)
  have hfirst : esp_isp_new_awb_controller env none cfg id1 true
      = { err := EspErr.invalidArg, slot := none, handle := none } := by
    simp [esp_isp_new_awb_controller, s_isp_claim_awb_controller,
          s_isp_declaim_awb_controller, h1, h2, h3, h4, h5, h6, hno]
  refine ⟨hfirst, ?_⟩
  rw [hfirst]
  exact create_ok_of_valid env2 cfg2 id2 g1 g2 g3 g4 g5 g6 g7 g8 hrg2 hbg2

/-- Witness for C6: red/green range {min 2, max 1} fails the first create
with InvalidArgument and leaves the slot empty; a second create with
{min 0, max 1} on the same processor succeeds. -/
theorem c6_create_rollback_witness :
    (⟨true, true, true, true, true, true, true, true⟩ : HalEnv).calloc_ok = true ∧
    (({ sample_point := 0,
        white_patch := { luminance := { min := 0, max := 255 },
                         red_green_ratio := { min := 2, max := 1 },
                         blue_green_ratio := { min := 0, max := 1 } },
        intr_priority := 1 } : esp_isp_awb_config_t).white_patch.red_green_ratio.max
       < ({ sample_point := 0,
            white_patch := { luminance := { min := 0, max := 255 },
                             red_green_ratio := { min := 2, max := 1 },
                             blue_green_ratio := { min := 0, max := 1 } },
            intr_priority := 1 } : esp_isp_awb_config_t).white_patch.red_green_ratio.min) ∧
    (esp_isp_new_awb_controller ⟨true, true, true, true, true, true, true, true⟩ none
        { sample_point := 0,
          white_patch := { luminance := { min := 0, max := 255 },
                           red_green_ratio := { min := 2, max := 1 },
                           blue_green_ratio := { min := 0, max := 1 } },
          intr_priority := 1 } 5 true
      = { err := EspErr.invalidArg, slot := none, handle := none }
  ∧ esp_isp_new_awb_controller ⟨true, true, true, true, true, true, true, true⟩
        (esp_isp_new_awb_controller ⟨true, true, true, true, true, true, true, true⟩
            none
            { sample_point := 0,
              white_patch := { luminance := { min := 0, max := 255 },
                               red_green_ratio := { min := 2, max := 1 },
                               blue_green_ratio := { min := 0, max := 1 } },
              intr_priority := 1 } 5 true).slot
        { sample_point := 0,
          white_patch := { luminance := { min := 0, max := 255 },
                           red_green_ratio := { min := 0, max := 1 },
                           blue_green_ratio := { min := 0, max := 1 } },
          intr_priority := 1 } 6 true
      = { err := EspErr.ok, slot := some 6,
          handle := some { ctlr := freshAwbCtlr,
                           intr_flag := awbIntrFlag
                             ({ sample_point := 0,
                                white_patch := { luminance := { min := 0, max := 255 },
                                                 red_green_ratio := { min := 0, max := 1 },
                                                 blue_green_ratio := { min := 0, max := 1 } },
                                intr_priority := 1 } : esp_isp_awb_config_t).intr_priority } }) :=
  ⟨by decide, by decide,
   c6_create_rollback ⟨true, true, true, true, true, true, true, true⟩
     ⟨true, true, true, true, true, true, true, true⟩
     { sample_point := 0,
       white_patch := { luminance := { min := 0, max := 255 },
                        red_green_ratio := { min := 2, max := 1 },
                        blue_green_ratio := { min := 0, max := 1 } },
       intr_priority := 1 }
     { sample_point := 0,
       white_patch := { luminance := { min := 0, max := 255 },
                        red_green_ratio := { min := 0, max := 1 },
                        blue_green_ratio := { min := 0, max := 1 } },
       intr_priority := 1 } 5 6
     (by decide) (by decide) (by decide) (by decide) (by decide) (by decide)
     (Or.inl (by decide))
     (by decide) (by decide) (by decide) (by decide) (by decide) (by decide)
     (by decide) (by decide)
     ⟨by decide, by decide⟩ ⟨by decide, by decide⟩⟩

/-- Claim C8: on a controller in Enabled state with the Gate available,
`start_continuous` followed by `stop_continuous` returns the controller to
Enabled with the Gate available and the engine disabled — the final state
equals the input state up to forcing the engine off; and starting from any
controller in Init with the engine off, `enable` succeeds and the round trip
reproduces exactly the post-`enable` state. -/
theorem c8_start_stop_roundtrip (s0 s : AwbCtlrState)
    (h0 : s0.fsm = IspFsm.init) (he : s0.engine = false)
    (hf : s.fsm = IspFsm.enable) (hl : s.stat_lock = true) :
    esp_isp_awb_controller_stop_continuous_statistics
        (esp_isp_awb_controller_start_continuous_statistics s).state
      = (EspErr.ok, { s with engine := false })
  ∧ (esp_isp_awb_controller_enable s0).1 = EspErr.ok
  ∧ (esp_isp_awb_controller_enable s0).2.fsm = IspFsm.enable
  ∧ (esp_isp_awb_controller_enable s0).2.stat_lock = true
  ∧ esp_isp_awb_controller_stop_continuous_statistics
        (esp_isp_awb_controller_start_continuous_statistics
            (esp_isp_awb_controller_enable s0).2).state
      = (EspErr.ok, (esp_isp_awb_controller_enable s0).2) := by
  obtain ⟨f, l, q, e, i, k, cb⟩ := s
  obtain ⟨f0, l0, q0, e0, i0, k0, cb0⟩ := s0
  simp only at hf hl h0 he
  subst hf hl h0 he
  simp [esp_isp_awb_controller_enable,
        esp_isp_awb_controller_start_continuous_statistics,
        esp_isp_awb_controller_stop_continuous_statistics]

/-- Witness for C8 at a fresh controller and the just-enabled idle
controller. -/
theorem c8_start_stop_roundtrip_witness :
    freshAwbCtlr.fsm = IspFsm.init ∧ freshAwbCtlr.engine = false ∧
    enabledIdle.fsm = IspFsm.enable ∧ enabledIdle.stat_lock = true ∧
    (esp_isp_awb_controller_stop_continuous_statistics
        (esp_isp_awb_controller_start_continuous_statistics enabledIdle).state
      = (EspErr.ok, { enabledIdle with engine := false })
  ∧ (esp_isp_awb_controller_enable freshAwbCtlr).1 = EspErr.ok
  ∧ (esp_isp_awb_controller_enable freshAwbCtlr).2.fsm = IspFsm.enable
  ∧ (esp_isp_awb_controller_enable freshAwbCtlr).2.stat_lock = true
  ∧ esp_isp_awb_controller_stop_continuous_statistics
        (esp_isp_awb_controller_start_continuous_statistics
            (esp_isp_awb_controller_enable freshAwbCtlr).2).state
      = (EspErr.ok, (esp_isp_awb_controller_enable freshAwbCtlr).2)) :=
  ⟨by decide, by decide, by decide, by decide,
   c8_start_stop_roundtrip freshAwbCtlr enabledIdle (by decide) (by decide)
     (by decide) (by decide)⟩

/-- Claim C9 as amended: `disable` on an enabled controller succeeds and
forces the Gate to the unavailable state regardless of its prior value
(`xSemaphoreTake(stat_lock, 0)`), and a subsequent `enable` followed by a
one-shot call (with a result pointer) behaves identically — same return
value, same delivered result, same final state — to a fresh controller's
first `enable`/one-shot cycle, for a controller with no callback
registered. -/
theorem c9_disable_then_fresh_cycle (s : AwbCtlrState) (t : Int) (o cy qw : Bool)
    (c : Option AwbStatResult)
    (hf : s.fsm = IspFsm.enable) (hcb : s.cb_present = false) (ho : o = true) :
    (esp_isp_awb_controller_disable s).1 = EspErr.ok
  ∧ (esp_isp_awb_controller_disable s).2.stat_lock = false
  ∧ (esp_isp_awb_controller_disable s).2.fsm = IspFsm.init
  ∧ esp_isp_awb_controller_get_oneshot_statistics
        (esp_isp_awb_controller_enable (esp_isp_awb_controller_disable s).2).2
        t o c cy qw
      = esp_isp_awb_controller_get_oneshot_statistics
        (esp_isp_awb_controller_enable freshAwbCtlr).2 t o c cy qw := by
  obtain ⟨f, l, q, e, i, k, cb⟩ := s
  simp only at hf hcb
  subst hf hcb ho
  refine ⟨by simp [esp_isp_awb_controller_disable],
          by simp [esp_isp_awb_controller_disable],
          by simp [esp_isp_awb_controller_disable], ?_⟩
  simp [esp_isp_awb_controller_disable, esp_isp_awb_controller_enable,
        freshAwbCtlr, esp_isp_awb_controller_get_oneshot_statistics]

/-- Witness for the amended C9: disable the just-enabled idle controller,
re-enable, and run a 100 ms one-shot that completes. -/
theorem c9_disable_then_fresh_cycle_witness :
    enabledIdle.fsm = IspFsm.enable ∧ enabledIdle.cb_present = false ∧
    (true = true) ∧
    ((esp_isp_awb_controller_disable enabledIdle).1 = EspErr.ok
  ∧ (esp_isp_awb_controller_disable enabledIdle).2.stat_lock = false
  ∧ (esp_isp_awb_controller_disable enabledIdle).2.fsm = IspFsm.init
  ∧ esp_isp_awb_controller_get_oneshot_statistics
        (esp_isp_awb_controller_enable
            (esp_isp_awb_controller_disable enabledIdle).2).2
        100 true (some { white_patch_num := 1, sum_r := 2, sum_g := 3, sum_b := 4 })
        false false
      = esp_isp_awb_controller_get_oneshot_statistics
        (esp_isp_awb_controller_enable freshAwbCtlr).2
        100 true (some { white_patch_num := 1, sum_r := 2, sum_g := 3, sum_b := 4 })
        false false) :=
  ⟨by decide, by decide, by decide,
   c9_disable_then_fresh_cycle enabledIdle 100 true false false
     (some { white_patch_num := 1, sum_r := 2, sum_g := 3, sum_b := 4 })
     (by decide) (by decide) (by decide)⟩

/-- Claim C10: for every configuration whose interrupt priority lies outside
1..7 (including 0 and negative values), `create` does not fail on that
account — `awbIntrFlag` silently substitutes the default
`ESP_INTR_FLAG_LOWMED` priority, and with an otherwise valid configuration
the create succeeds with that default flag. -/
theorem c10_priority_defaulted (env : HalEnv) (cfg : esp_isp_awb_config_t) (nid : Nat)
    (h1 : env.calloc_ok = true) (h2 : env.que_ok = true) (h3 : env.sem_ok = true)
    (h4 : env.intr_alloc_ok = true) (h5 : env.window_ok = true)
    (h6 : env.lum_ok = true) (h7 : env.rg_ok = true) (h8 : env.bg_ok = true)
    (hrg : cfg.white_patch.red_green_ratio.min < cfg.white_patch.red_green_ratio.max
           ∧ 0 ≤ cfg.white_patch.red_green_ratio.min)
    (hbg : cfg.white_patch.blue_green_ratio.min < cfg.white_patch.blue_green_ratio.max
           ∧ 0 ≤ cfg.white_patch.blue_green_ratio.min)
    (hp : cfg.intr_priority ≤ 0 ∨ 7 < cfg.intr_priority) :
    awbIntrFlag cfg.intr_priority = ESP_INTR_FLAG_LOWMED
  ∧ esp_isp_new_awb_controller env none cfg nid true
      = { err := EspErr.ok, slot := some nid,
          handle := some { ctlr := freshAwbCtlr,
                           intr_flag := ESP_INTR_FLAG_LOWMED } } := by
  have hcond : ¬ (0 < cfg.intr_priority ∧ cfg.intr_priority ≤ 7) := by omega
  have hflag : awbIntrFlag cfg.intr_priority = ESP_INTR_FLAG_LOWMED := by
    simp [awbIntrFlag, hcond]
  refine ⟨hflag, ?_⟩
  rw [create_ok_of_valid env cfg nid h1 h2 h3 h4 h5 h6 h7 h8 hrg hbg, hflag]

/-- Witness for C10 at interrupt priority 0 (outside 1..7). -/
theorem c10_priority_defaulted_witness :
    (⟨true, true, true, true, true, true, true, true⟩ : HalEnv).calloc_ok = true ∧
    (({ sample_point := 0,
        white_patch := { luminance := { min := 0, max := 255 },
                         red_green_ratio := { min := 0, max := 1 },
                         blue_green_ratio := { min := 0, max := 1 } },
        intr_priority := 0 } : esp_isp_awb_config_t).intr_priority ≤ 0 ∨
       7 < ({ sample_point := 0,
              white_patch := { luminance := { min := 0, max := 255 },
                               red_green_ratio := { min := 0, max := 1 },
                               blue_green_ratio := { min := 0, max := 1 } },
              intr_priority := 0 } : esp_isp_awb_config_t).intr_priority) ∧
    (awbIntrFlag ({ sample_point := 0,
                    white_patch := { luminance := { min := 0, max := 255 },
                                     red_green_ratio := { min := 0, max := 1 },
                                     blue_green_ratio := { min := 0, max := 1 } },
                    intr_priority := 0 } : esp_isp_awb_config_t).intr_priority
       = ESP_INTR_FLAG_LOWMED
  ∧ esp_isp_new_awb_controller ⟨true, true, true, true, true, true, true, true⟩ none
        { sample_point := 0,
          white_patch := { luminance := { min := 0, max := 255 },
                           red_green_ratio := { min := 0, max := 1 },
                           blue_green_ratio := { min := 0, max := 1 } },
          intr_priority := 0 } 5 true
      = { err := EspErr.ok, slot := some 5,
          handle := some { ctlr := freshAwbCtlr,
                           intr_flag := ESP_INTR_FLAG_LOWMED } }) :=
  ⟨by decide, Or.inl (by decide),
   c10_priority_defaulted ⟨true, true, true, true, true, true, true, true⟩
     { sample_point := 0,
       white_patch := { luminance := { min := 0, max := 255 },
                        red_green_ratio := { min := 0, max := 1 },
                        blue_green_ratio := { min := 0, max := 1 } },
       intr_priority := 0 } 5
     (by decide) (by decide) (by decide) (by decide) (by decide) (by decide)
     (by decide) (by decide) ⟨by decide, by decide⟩ ⟨by decide, by decide⟩
     (Or.inl (by decide))⟩
